import Mathlib

/-!
Verification development for the AusSRC casda_mosaic_cutouts repository.

The embedding models the download-and-assemble orchestration:
* `src/casda/cutout.py` (`main`): centre/frequency resolution, TAP query, filters,
  image/weight split, cutout, checksum exclusion, count assertion, filename→URL maps;
* `src/cutout/casda.py` (`download`, `_cutout_and_download`, `_casda_download_subset`):
  per-observation concurrent cutout-and-download, dict aggregation;
* `src/mosaic/linmos.py` (`run_linmos`, `generate_config`) and
  `src/mosaic/linmos_config.py` (`generate`).

Numeric CLI values (coordinates, frequencies, velocities) are modelled as exact
rationals (every runtime float value is a rational); the separation threshold
sqrt(3^2+3^2) is kept as the real number the source writes, with region-filter
decidability obtained from the equivalence |x| < sqrt 18 ↔ x^2 < 18.
Remote services (name lookup, TAP, cutout generation) are oracles passed in as
function parameters; network/filesystem effects relevant to the claims are
recorded as explicit event traces.
-/

namespace Casda

/-! ### String containment (Python's `in` operator on str) -/

/-- Is `pat` a leading block of `s`? (character-list version) -/
def chrPre : List Char → List Char → Bool
  | [], _ => true
  | _ :: _, [] => false
  | a :: as, b :: bs => a == b && chrPre as bs

/-- Does `pat` occur contiguously inside `s`? (character-list version) -/
def chrSub (pat : List Char) : List Char → Bool
  | [] => chrPre pat []
  | c :: rest => chrPre pat (c :: rest) || chrSub pat rest

/-- Python's `pat in s` for strings: contiguous substring containment. -/
def strContains (s pat : String) : Bool := chrSub pat.data s.data

/-- Left-to-right non-overlapping replacement of a non-empty pattern, with the
remaining input length as structural fuel. -/
def replaceAux (pat rep : List Char) : Nat → List Char → List Char
  | _, [] => []
  | 0, s => s
  | fuel + 1, c :: rest =>
    if pat ≠ [] && chrPre pat (c :: rest) then
      rep ++ replaceAux pat rep fuel ((c :: rest).drop pat.length)
    else
      c :: replaceAux pat rep fuel rest

/-- Python's `s.replace(pat, rep)` for a non-empty pattern. -/
def strReplace (s pat rep : String) : String :=
  String.mk (replaceAux pat.data rep.data s.data.length s.data)

/-- `url.rsplit('/')[-1]`: the part of the string after its last '/'. -/
def lastComp (s : String) : String :=
  String.mk ((s.data.reverse.takeWhile (fun c => c != '/')).reverse)

/-- The non-checksum sublist: `[f for f in urls if '.checksum' not in f]`
(src/cutout/casda.py line 60, src/casda/cutout.py lines 127-128). -/
def noChecksum (urls : List String) : List String :=
  urls.filter (fun f => !(strContains f ".checksum"))

/-- A decidable-equality carrier for `Except` results. -/
def exceptToSum {ε α : Type} : Except ε α → ε ⊕ α
  | .error e => .inl e
  | .ok a => .inr a

instance {ε α : Type} [DecidableEq ε] [DecidableEq α] :
    DecidableEq (Except ε α) := fun a b =>
  decidable_of_iff (exceptToSum a = exceptToSum b)
    (by cases a <;> cases b <;> simp [exceptToSum])

/-! ### Data model -/

/-- One row of the TAP result table; only the columns the core reads
(`obs_id, filename, dataproduct_subtype, s_ra, s_dec`). Coordinates are exact
rationals (every float the runtime can hold is rational). -/
structure Record where
  obs_id : String
  filename : String
  dataproduct_subtype : String
  s_ra : ℚ
  s_dec : ℚ
deriving DecidableEq

/-- The resolved centre position (`SkyCoord` degrees). -/
structure Centre where
  ra : ℚ
  dec : ℚ
deriving DecidableEq

/-- Errors raised by the embedded code paths.  `invalidCoords` and
`invalidSpectral` are the two `raise Exception(...)` target-spec failures (the
spec's `InvalidTargetSpec`); `countMismatch` is the count assertion in
`src/casda/cutout.py` main (the spec's `DownloadCountMismatch`); `indexError`
is Python's builtin IndexError from indexing an empty sequence. -/
inductive RunErr where
  | invalidCoords
  | invalidSpectral
  | countMismatch (kind : String)
  | indexError
deriving DecidableEq

/-- Network/filesystem events, in program order, for the claims that are about
when a call happens. -/
inductive Ev where
  | login
  | nameLookup (n : String)
  | tapQuery (q : String)
  | cutoutCall (filenames : List String)
  | downloadCall (urls : List String)
  | writeFileMap
deriving DecidableEq

/-! ### The separation predicate and the result filters
`SEPARATION = math.sqrt(3**2 + 3**2)` in both source files; the filters keep a
row when `abs(s_ra - centre.ra) < SEPARATION` and likewise for `s_dec`. -/

/-- The axis comparison of the region filter over the reals:
`abs(x) < math.sqrt(3**2 + 3**2)`. -/
def sepLtR (x : ℝ) : Prop := |x| < Real.sqrt (3 ^ 2 + 3 ^ 2)

/-- The axis comparison applied to a rational coordinate difference. -/
def sepLt (x : ℚ) : Prop := sepLtR (x : ℝ)

instance sepLt.instDec (x : ℚ) : Decidable (sepLt x) :=
  decidable_of_iff (x ^ 2 < 18) (by
    unfold sepLt sepLtR
    rw [show ((3 : ℝ) ^ 2 + 3 ^ 2) = 18 by norm_num,
      Real.lt_sqrt (abs_nonneg _), sq_abs]
    exact_mod_cast Iff.rfl)

/-- Filter (a): `('MilkyWay' in f) == milkyway` over the filenames
(src/casda/cutout.py line 99, src/cutout/casda.py line 130). -/
def milkyFilter (observations : List Record) (milkyway : Bool) : List Record :=
  observations.filter (fun r => strContains r.filename "MilkyWay" == milkyway)

/-- Filter (b): the region filter, two sequential strict comparisons against
`SEPARATION` (src/casda/cutout.py lines 100-101, src/cutout/casda.py 131-132). -/
def regionFilter (s : List Record) (c : Centre) : List Record :=
  (s.filter (fun r => decide (sepLt (r.s_ra - c.ra)))).filter
    (fun r => decide (sepLt (r.s_dec - c.dec)))

/-- The composed subset selection of both scripts: galactic filter then the
region filter. -/
def filterSubset (observations : List Record) (milkyway : Bool) (c : Centre) :
    List Record :=
  regionFilter (milkyFilter observations milkyway) c

/-! ### Frequency / velocity resolution -/

/-- The 21cm rest frequency `1.420405751786 GHz` in Hz (`HI_REST_FREQ`). -/
def HI_REST_FREQ_HZ : ℚ := 1420405751.786

/-- The speed of light in km/s, as astropy uses for km/s velocities. -/
def C_KMS : ℚ := 299792.458

/-- `u.doppler_radio(HI_REST_FREQ)` applied to a km/s velocity: the radio
convention `f = f0 * (1 - v/c)`. -/
def dopplerRadio (v : ℚ) : ℚ := HI_REST_FREQ_HZ * (1 - v / C_KMS)

/-- Ascending insertion into a sorted rational list. -/
def insertAsc (x : ℚ) : List ℚ → List ℚ
  | [] => [x]
  | y :: ys => if x ≤ y then x :: y :: ys else y :: insertAsc x ys

/-- `freq.sort()` on the converted velocity array: ascending sort. -/
def sortAsc : List ℚ → List ℚ
  | [] => []
  | x :: xs => insertAsc x (sortAsc xs)

/-- src/casda/cutout.py main lines 79-87: if a frequency range is supplied it is
scaled MHz→Hz (`* 1e6`); otherwise a velocity range is converted with the radio
Doppler convention and sorted ascending; otherwise the missing-range Exception
is raised.  CLI ranges are modelled as already-tokenised rational lists. -/
def resolveFreq (freq : Option (List ℚ)) (vel : Option (List ℚ)) :
    Except RunErr (List ℚ) :=
  match freq with
  | some fs => .ok (fs.map (fun f => f * 1000000))
  | none =>
    match vel with
    | some vs => .ok (sortAsc (vs.map dopplerRadio))
    | none => .error .invalidSpectral

/-- src/cutout/casda.py download lines 112-120: the same chain, except the line
`freq = None` immediately before the check rebinds the parameter, so the
frequency branch can never be taken (the parameter `freqArg` is dead). -/
def resolveFreqDownload (freqArg : Option (List ℚ)) (vel : Option (List ℚ)) :
    Except RunErr (List ℚ) :=
  let freq : Option (List ℚ) := none
  match freq with
  | some fs => .ok (fs.map (fun f => f * 1000000))
  | none =>
    match vel with
    | some vs => .ok (sortAsc (vs.map dopplerRadio))
    | none => .error .invalidSpectral

/-- src/casda/cutout.py main lines 62-96: CASDA login, then the centre chain
(`if name is not None ... elif ra and dec ... else raise`), then the frequency
chain, then the `$OBS_COLLECTION` substitution and the TAP query.  The name
lookup service and the TAP result table are oracles; the trace records the
remote calls in program order. -/
def mainResolvePhase (resolveNameC : String → Centre) (tapResults : List Record)
    (name : Option String) (ra dec : Option ℚ) (freq vel : Option (List ℚ))
    (queryStr obs_collection : String) :
    List Ev × Except RunErr (Centre × List ℚ × List Record) :=
  match name with
  | some n =>
    let centre := resolveNameC n
    (match resolveFreq freq vel with
      | .error e => ([Ev.login, Ev.nameLookup n], .error e)
      | .ok fs =>
        let q := strReplace queryStr "$OBS_COLLECTION" obs_collection
        ([Ev.login, Ev.nameLookup n, Ev.tapQuery q], .ok (centre, fs, tapResults)))
  | none =>
    match ra, dec with
    | some r, some d =>
      (match resolveFreq freq vel with
        | .error e => ([Ev.login], .error e)
        | .ok fs =>
          let q := strReplace queryStr "$OBS_COLLECTION" obs_collection
          ([Ev.login, Ev.tapQuery q], .ok (⟨r, d⟩, fs, tapResults)))
    | _, _ => ([Ev.login], .error .invalidCoords)

/-! ### Per-group cutout and download (src/cutout/casda.py) -/

/-- src/cutout/casda.py `_cutout_and_download` lines 55-66: read
`file_list[0]['filename']` (IndexError on an empty group), request the cutout,
drop URLs containing '.checksum', download the remainder (the call happens even
when the remainder is empty), then read `url_list[0]` (IndexError when every
URL was a checksum sidecar) and return the single-entry dict
`{filename: os.path.join(output, url_list[0].rsplit('/')[-1])}`. -/
def _cutout_and_download (cutoutSvc : List Record → List String)
    (file_list : List Record) (output : String) :
    List Ev × Except RunErr (List (String × String)) :=
  match file_list with
  | [] => ([], .error .indexError)
  | r0 :: _ =>
    let filename := r0.filename
    let url_list := noChecksum (cutoutSvc file_list)
    let evs := [Ev.cutoutCall (file_list.map (fun r => r.filename)),
      Ev.downloadCall url_list]
    match url_list with
    | [] => (evs, .error .indexError)
    | u0 :: _ =>
      let download_filename := output ++ "/" ++ lastComp u0
      (evs, .ok [(filename, download_filename)])

/-- Python's `{**a, **b}` on association lists: keys of `a` not overridden by
`b`, followed by `b`. -/
def mergeAssoc (a b : List (String × String)) : List (String × String) :=
  a.filter (fun p => !(b.any (fun q => q.1 == p.1))) ++ b

/-- The first error of a per-observation (image, weight) task pair, if any. -/
def errOf {α : Type} : Except RunErr α → Option RunErr
  | .error e => some e
  | .ok _ => none

/-- The payload of a succeeded task (only used once no task errored). -/
def okOf : Except RunErr (List (String × String)) → List (String × String)
  | .error _ => []
  | .ok m => m

/-- The outcome of src/cutout/casda.py `download` after the filter step:
the bare `return` on an empty subset (Python `None`), a propagated task
exception, or the image/weight dict pair. -/
inductive DownloadOutcome where
  | noSubset
  | failed (e : RunErr)
  | result (image_dict weights_dict : List (String × String))
deriving DecidableEq

/-- src/cutout/casda.py `download` lines 135-177, taking the already-filtered
subset: the `len(subset) == 0` bare return; the distinct `obs_id`s (Python's
`list(set(...))` order is unspecified — modelled by `List.dedup`); the sbid
allow-list (`any(sbid in obs_id ...)`); per observation the image/weight
subtype split and the two `_cutout_and_download` tasks; fail-fast propagation
of the first task error through the gathers; dict union aggregation and the
file-map write.  makedirs and the size accounting are not modelled. -/
def downloadPhase (cutoutSvc : List Record → List String) (subset : List Record)
    (sbids : Option (List String)) (output : String) :
    List Ev × DownloadOutcome :=
  if subset.isEmpty then ([], .noSubset)
  else
    let obsIds := (subset.map (fun r => r.obs_id)).dedup
    let kept := obsIds.filter (fun oid =>
      match sbids with
      | none => true
      | some l => l.any (fun sbid => strContains oid sbid))
    let runs := kept.map (fun oid =>
      let subset_sbid := subset.filter (fun r => r.obs_id == oid)
      let img := subset_sbid.filter
        (fun r => r.dataproduct_subtype == "spectral.restored.3d")
      let wgt := subset_sbid.filter
        (fun r => r.dataproduct_subtype == "spectral.weight.3d")
      (_cutout_and_download cutoutSvc img output,
       _cutout_and_download cutoutSvc wgt output))
    let evs := (runs.map (fun p => p.1.1 ++ p.2.1)).flatten
    match runs.findSome? (fun p => errOf p.1.2 <|> errOf p.2.2) with
    | some e => (evs, .failed e)
    | none =>
      let image_dict := runs.foldl (fun acc p => mergeAssoc acc (okOf p.1.2)) []
      let weights_dict := runs.foldl (fun acc p => mergeAssoc acc (okOf p.2.2)) []
      (evs ++ [Ev.writeFileMap], .result image_dict weights_dict)

/-! ### The single-shot download of src/casda/cutout.py main -/

/-- Lexicographic `a ≤ b` on character lists, comparing code points. -/
def chrLe : List Char → List Char → Bool
  | [], _ => true
  | _ :: _, [] => false
  | a :: as, b :: bs => if a == b then chrLe as bs else decide (a.toNat < b.toNat)

/-- Boolean lexicographic `a ≤ b` on strings. -/
def strLeB (a b : String) : Bool := chrLe a.data b.data

/-- Insertion by a Boolean comparator (stable for a total `le`). -/
def insertBy {α : Type} (le : α → α → Bool) (x : α) : List α → List α
  | [] => [x]
  | y :: ys => if le x y then x :: y :: ys else y :: insertBy le x ys

/-- `astropy.table.Table.sort`: ascending stable sort by a comparator. -/
def sortBy {α : Type} (le : α → α → Bool) : List α → List α
  | [] => []
  | x :: xs => insertBy le x (sortBy le xs)

/-- The image rows of the subset, sorted by filename
(src/casda/cutout.py lines 109, 111). -/
def mainImages (subset : List Record) : List Record :=
  sortBy (fun a b => strLeB a.filename b.filename)
    (subset.filter (fun r => r.dataproduct_subtype == "spectral.restored.3d"))

/-- The weight rows of the subset, sorted by filename
(src/casda/cutout.py lines 110, 112). -/
def mainWeights (subset : List Record) : List Record :=
  sortBy (fun a b => strLeB a.filename b.filename)
    (subset.filter (fun r => r.dataproduct_subtype == "spectral.weight.3d"))

/-- src/casda/cutout.py main lines 108-137: cutout the sorted image group and
the sorted weight group, download both URL lists, drop checksum sidecars,
assert that each non-checksum count equals its record count (AssertionError on
mismatch — the spec's `DownloadCountMismatch`), and zip the original filenames
with the non-checksum URLs (the dict values are the URLs, not the
`download_files` local paths). -/
def mainDownloadPhase (cutoutSvc : List Record → List String)
    (subset : List Record) :
    Except RunErr (List (String × String) × List (String × String)) :=
  let images := mainImages subset
  let weights := mainWeights subset
  let image_url_list := cutoutSvc images
  let weights_url_list := cutoutSvc weights
  let image_nc := noChecksum image_url_list
  let weights_nc := noChecksum weights_url_list
  if image_nc.length ≠ images.length then .error (.countMismatch "image")
  else if weights_nc.length ≠ weights.length then .error (.countMismatch "weight")
  else .ok ((images.map (fun r => r.filename)).zip image_nc,
    (weights.map (fun r => r.filename)).zip weights_nc)

/-! ### Mosaic configuration (src/mosaic/linmos.py generate_config and
src/mosaic/linmos_config.py generate) -/

/-- Index of the last '.' in a character list, if any. -/
def lastDotIdx (cs : List Char) : Option Nat :=
  ((cs.enum.filter (fun p => p.2 == '.')).map Prod.fst).getLast?

/-- `pathlib` stem computation on one path component (character list): a
suffix exists when the last '.' is neither the first nor the last character of
the component, and `with_suffix('')` then drops it; otherwise the name is
unchanged. -/
def stemChars (cs : List Char) : List Char :=
  match lastDotIdx cs with
  | some i =>
    if 0 < i ∧ i + 1 < cs.length then cs.take i else cs
  | none => cs

/-- `Path(p).with_suffix('')` on the string form of a path: strips the final
extension of the last '/'-component, leaving the directory part alone. -/
def with_suffix_empty (p : String) : String :=
  let cs := p.data
  let lastSeg := (cs.reverse.takeWhile (fun c => c != '/')).reverse
  let lead := cs.take (cs.length - lastSeg.length)
  String.mk (lead ++ stemChars lastSeg)

/-- The information content of the rendered linmos configuration. -/
structure LinmosConfig where
  images : List String
  weights : List String
  image_out : String
  weight_out : String
  image_history : List String
deriving DecidableEq

/-- Modelled from the spec: the Jinja template `mosaic/template/linmos.j2` is
not under src/; per the spec the rendered document lists the image paths, the
weight paths, the two output paths and a history list of the original catalog
filenames, so the render is modelled as this record (serialised to text by
`serializeLinmos`). -/
def renderLinmos (images weights : List String) (image_out weight_out : String)
    (image_history : List String) : LinmosConfig :=
  ⟨images, weights, image_out, weight_out, image_history⟩

/-- Comma-join, for the serialised list entries. -/
def joinComma : List String → String
  | [] => ""
  | [x] => x
  | x :: y :: xs => x ++ "," ++ joinComma (y :: xs)

/-- Modelled from the spec: a deterministic line-based serialisation of the
rendered configuration (the template file itself is not under src/). -/
def serializeLinmos (c : LinmosConfig) : String :=
  "linmos.names = [" ++ joinComma c.images ++ "]\n" ++
  "linmos.weights = [" ++ joinComma c.weights ++ "]\n" ++
  "linmos.outname = " ++ c.image_out ++ "\n" ++
  "linmos.outweight = " ++ c.weight_out ++ "\n" ++
  "linmos.imagehistory = [" ++ joinComma c.image_history ++ "]\n"

/-- src/mosaic/linmos.py `generate_config` lines 57-86: images and weights are
the dict values, the history is all image keys then all weight keys, and every
path — inputs and both outputs — is passed through `with_suffix('')`. -/
def generate_configC (image_dict weights_dict : List (String × String))
    (output_image output_weights : String) : LinmosConfig :=
  let images := image_dict.map Prod.snd
  let weights := weights_dict.map Prod.snd
  let image_history := image_dict.map Prod.fst ++ weights_dict.map Prod.fst
  renderLinmos (images.map with_suffix_empty) (weights.map with_suffix_empty)
    (with_suffix_empty output_image) (with_suffix_empty output_weights)
    image_history

/-- The text written to the config file by src/mosaic/linmos.py. -/
def generate_config (image_dict weights_dict : List (String × String))
    (output_image output_weights : String) : String :=
  serializeLinmos (generate_configC image_dict weights_dict output_image
    output_weights)

/-- src/mosaic/linmos_config.py `generate` lines 8-34: identical to
`generate_config` except no path is passed through `with_suffix('')` — the
dict values and output paths are rendered as given. -/
def linmos_config_generateC (image_dict weights_dict : List (String × String))
    (output_image output_weights : String) : LinmosConfig :=
  let images := image_dict.map Prod.snd
  let weights := weights_dict.map Prod.snd
  let image_history := image_dict.map Prod.fst ++ weights_dict.map Prod.fst
  renderLinmos images weights output_image output_weights image_history

/-- The text written to the config file by src/mosaic/linmos_config.py. -/
def linmos_config_generate (image_dict weights_dict : List (String × String))
    (output_image output_weights : String) : String :=
  serializeLinmos (linmos_config_generateC image_dict weights_dict output_image
    output_weights)

/-! ### Batch job submission (src/mosaic/linmos.py run_linmos) -/

/-- Filesystem / subprocess events of `run_linmos`, in program order. -/
inductive JobEv where
  | writeScript (path content : String)
  | chmodExec (path : String)
  | submit (cmd : String)
deriving DecidableEq

/-- `run_linmos` failures: the two existence preconditions and the
`subprocess.run(..., check=True)` CalledProcessError on a non-zero sbatch exit
(the spec's `SchedulerSubmitError`). -/
inductive JobErr where
  | containerNotFound
  | configNotFound
  | schedulerSubmitError
deriving DecidableEq

/-- The `**sbatch_kwargs` resource values. -/
structure SbatchKwargs where
  account : String
  time : String
  mem : String

/-- The `cmd` line list of src/mosaic/linmos.py lines 25-32. -/
def sbatchCmdLines (scratch singularity container linmos_config : String)
    (kw : SbatchKwargs) : List String :=
  ["#!/bin/bash\n",
   "#SBATCH --account=" ++ kw.account ++ "\n",
   "#SBATCH --time=" ++ kw.time ++ "\n",
   "#SBATCH --mem=" ++ kw.mem ++ "\n",
   "module load " ++ singularity ++ "\n",
   "singularity exec --bind " ++ scratch ++ ":" ++ scratch ++ " " ++ container
     ++ " linmos -c " ++ linmos_config ++ "\n"]

/-- src/mosaic/linmos.py `run_linmos` lines 12-39: existence preconditions,
write the job script to `workdir/linmos.sh`, `os.chmod(... | S_IEXEC)`, then
`subprocess.run('sbatch ...', check=True)` whose non-zero exit raises.  File
existence and the scheduler exit status are oracle inputs; the trace records
the filesystem and subprocess actions in order (the config path is never
written to). -/
def run_linmos (containerExists configExists : Bool) (container linmos_config
    scratch workdir singularity : String) (kw : SbatchKwargs)
    (sbatchExit : Nat) : List JobEv × Except JobErr Unit :=
  if !containerExists then ([], .error .containerNotFound)
  else if !configExists then ([], .error .configNotFound)
  else
    let sbatch_file := workdir ++ "/" ++ "linmos.sh"
    let content :=
      String.join (sbatchCmdLines scratch singularity container linmos_config kw)
    let evs := [JobEv.writeScript sbatch_file content,
      JobEv.chmodExec sbatch_file, JobEv.submit ("sbatch " ++ sbatch_file)]
    if sbatchExit ≠ 0 then (evs, .error .schedulerSubmitError)
    else (evs, .ok ())

/-! ## Claims -/

/-- Claim C7: the region filter keeps a record if and only if both
`|s_ra − centre.ra|` and `|s_dec − centre.dec|` are strictly less than
`sqrt(3^2 + 3^2)` degrees, and a value lying exactly at the separation
threshold fails the (strict) axis comparison, so such a record is excluded. -/
theorem C7_region_filter_strict :
    (∀ (s : List Record) (c : Centre) (r : Record),
      r ∈ regionFilter s c ↔
        r ∈ s ∧ |((r.s_ra - c.ra : ℚ) : ℝ)| < Real.sqrt (3 ^ 2 + 3 ^ 2)
          ∧ |((r.s_dec - c.dec : ℚ) : ℝ)| < Real.sqrt (3 ^ 2 + 3 ^ 2)) ∧
    (∀ x : ℝ, |x| = Real.sqrt (3 ^ 2 + 3 ^ 2) → ¬ sepLtR x) := by
  constructor
  · intro s c r
    simp only [regionFilter, List.mem_filter, decide_eq_true_eq, sepLt, sepLtR]
    push_cast
    tauto
  · intro x h hs
    rw [sepLtR, h] at hs
    exact lt_irrefl _ hs

/-- Witness for C7: the threshold value itself is excluded by the strict
axis comparison. -/
theorem C7_witness : ¬ sepLtR (Real.sqrt (3 ^ 2 + 3 ^ 2)) :=
  C7_region_filter_strict.2 _ (abs_of_nonneg (Real.sqrt_nonneg _))

/-- Claim C8: for any velocity pair, the resolver converts both velocities
with the radio Doppler convention against the fixed 1.420405751786 GHz rest
frequency and returns the pair sorted ascending, independently of the order
of the two input velocities. -/
theorem C8_vel_to_freq_sorted : ∀ v1 v2 : ℚ,
    ∃ f1 f2, resolveFreq none (some [v1, v2]) = .ok [f1, f2] ∧ f1 ≤ f2 ∧
      resolveFreq none (some [v1, v2]) = resolveFreq none (some [v2, v1]) ∧
      ((f1 = dopplerRadio v1 ∧ f2 = dopplerRadio v2) ∨
        (f1 = dopplerRadio v2 ∧ f2 = dopplerRadio v1)) := by
  intro v1 v2
  have key : ∀ a b : ℚ, sortAsc [a, b] = if a ≤ b then [a, b] else [b, a] := by
    intro a b
    by_cases h : a ≤ b <;> simp [sortAsc, insertAsc, h]
  by_cases h : dopplerRadio v1 ≤ dopplerRadio v2
  · refine ⟨dopplerRadio v1, dopplerRadio v2, ?_, h, ?_, Or.inl ⟨rfl, rfl⟩⟩
    · simp [resolveFreq, key, h]
    · by_cases h2 : dopplerRadio v2 ≤ dopplerRadio v1
      · have heq : dopplerRadio v1 = dopplerRadio v2 := le_antisymm h h2
        simp [resolveFreq, key, h, h2, heq]
      · simp [resolveFreq, key, h, h2]
  · have h' : dopplerRadio v2 ≤ dopplerRadio v1 := le_of_not_le h
    refine ⟨dopplerRadio v2, dopplerRadio v1, ?_, h', ?_, Or.inr ⟨rfl, rfl⟩⟩
    · simp [resolveFreq, key, h]
    · simp [resolveFreq, key, h, h']

/-- Claim C4 (code bug): in src/cutout/casda.py `download`, the `freq = None`
line makes the explicit-frequency branch unreachable, so supplying the range
`1400 1440` MHz with no velocity raises the missing-range Exception; the
sibling resolver in src/casda/cutout.py `main` behaves as the claim states,
scaling the range MHz→Hz with no error. -/
theorem C4_freq_branch_dead :
    resolveFreqDownload (some [1400, 1440]) none = .error .invalidSpectral ∧
    resolveFreq (some [1400, 1440]) none = .ok [1400000000, 1440000000] := by
  constructor
  · rfl
  · show Except.ok _ = _
    norm_num [resolveFreq]

/-- Claim C10: when a product group is empty, `_cutout_and_download` fails at
`file_list[0]` with an index error; when the group is non-empty but every
returned URL is a checksum sidecar, it fails at `url_list[0]` with an index
error; it never returns an empty map, and neither case produces a named,
attributable error value. -/
theorem C10_empty_group_index_error :
    (∀ (svc : List Record → List String) (out : String),
      (_cutout_and_download svc [] out).2 = .error .indexError) ∧
    (∀ (svc : List Record → List String) (fl : List Record) (out : String),
      fl ≠ [] → noChecksum (svc fl) = [] →
      (_cutout_and_download svc fl out).2 = .error .indexError) ∧
    (∀ (svc : List Record → List String) (fl : List Record) (out : String)
      (m : List (String × String)),
      (_cutout_and_download svc fl out).2 = .ok m → m ≠ []) := by
  refine ⟨fun _ _ => rfl, ?_, ?_⟩
  · intro svc fl out hne hcs
    match fl with
    | [] => exact absurd rfl hne
    | r0 :: rest => simp [_cutout_and_download, hcs]
  · intro svc fl out m hok
    match fl with
    | [] => exact absurd hok (by simp [_cutout_and_download])
    | r0 :: rest =>
      rcases hurl : noChecksum (svc (r0 :: rest)) with _ | ⟨u0, us⟩
      · rw [show (_cutout_and_download svc (r0 :: rest) out).2
            = .error .indexError by simp [_cutout_and_download, hurl]] at hok
        exact absurd hok (by simp)
      · rw [show (_cutout_and_download svc (r0 :: rest) out).2
            = .ok [(r0.filename, out ++ "/" ++ lastComp u0)] by
            simp [_cutout_and_download, hurl]] at hok
        cases hok
        simp

/-- Witness for C10: an empty group, and a one-record group whose cutout
returns only a checksum sidecar, both end in the index error. -/
theorem C10_witness :
    (_cutout_and_download (fun _ => ["a.checksum"]) [] "o").2
        = .error .indexError ∧
    (_cutout_and_download (fun _ => ["a.checksum"])
      [⟨"o1", "f1", "spectral.restored.3d", 0, 0⟩] "o").2
        = .error .indexError :=
  ⟨C10_empty_group_index_error.1 _ _,
   C10_empty_group_index_error.2.1 _ _ _ (by decide) (by decide)⟩

/-- Claim C1 counterexample: a 3-record product group for which the cutout
service returns only 2 non-checksum URLs (plus a checksum sidecar).  The
per-group operation `_cutout_and_download` neither raises a count-mismatch
error nor returns one entry per record: it returns a single-entry map from
the first record's filename to the local path of the first non-checksum URL. -/
theorem C1_counterexample :
    (_cutout_and_download
      (fun _ => ["base/u1.fits", "base/u2.fits", "base/u1.fits.checksum"])
      [⟨"o1", "f1", "spectral.restored.3d", 0, 0⟩,
       ⟨"o1", "f2", "spectral.restored.3d", 0, 0⟩,
       ⟨"o1", "f3", "spectral.restored.3d", 0, 0⟩] "out").2
      = .ok [("f1", "out/u1.fits")] := by decide

/-- Claim C1 as amended: the per-observation group operation
(`_cutout_and_download`) excludes checksum URLs and returns a single-entry
map from the group's first record's filename to the local path derived from
the first non-checksum URL, with no count reconciliation; the count
reconciliation exists only in the single-shot script path
(src/casda/cutout.py `main`), which hard-fails on a non-checksum/record count
mismatch and otherwise returns one entry per record keyed by the original
filename (sorted) and valued by the non-checksum URL. -/
theorem C1_amended :
    (∀ (svc : List Record → List String) (r0 : Record) (rest : List Record)
      (out u : String) (us : List String),
      noChecksum (svc (r0 :: rest)) = u :: us →
      (_cutout_and_download svc (r0 :: rest) out).2
        = .ok [(r0.filename, out ++ "/" ++ lastComp u)]) ∧
    (∀ (svc : List Record → List String) (subset : List Record),
      (noChecksum (svc (mainImages subset))).length ≠ (mainImages subset).length →
      mainDownloadPhase svc subset = .error (.countMismatch "image")) ∧
    (∀ (svc : List Record → List String) (subset : List Record),
      (noChecksum (svc (mainImages subset))).length = (mainImages subset).length →
      (noChecksum (svc (mainWeights subset))).length ≠ (mainWeights subset).length →
      mainDownloadPhase svc subset = .error (.countMismatch "weight")) ∧
    (∀ (svc : List Record → List String) (subset : List Record),
      (noChecksum (svc (mainImages subset))).length = (mainImages subset).length →
      (noChecksum (svc (mainWeights subset))).length = (mainWeights subset).length →
      ∃ m w, mainDownloadPhase svc subset = .ok (m, w) ∧
        m.map Prod.fst = (mainImages subset).map (fun r => r.filename) ∧
        m.map Prod.snd = noChecksum (svc (mainImages subset)) ∧
        w.map Prod.fst = (mainWeights subset).map (fun r => r.filename) ∧
        w.map Prod.snd = noChecksum (svc (mainWeights subset))) := by
  refine ⟨?_, ?_, ?_, ?_⟩
  · intro svc r0 rest out u us hurl
    simp [_cutout_and_download, hurl]
  · intro svc subset h
    simp [mainDownloadPhase, h]
  · intro svc subset h1 h2
    simp [mainDownloadPhase, h1, h2]
  · intro svc subset h1 h2
    refine ⟨((mainImages subset).map (fun r => r.filename)).zip
        (noChecksum (svc (mainImages subset))),
      ((mainWeights subset).map (fun r => r.filename)).zip
        (noChecksum (svc (mainWeights subset))),
      by simp [mainDownloadPhase, h1, h2], ?_, ?_, ?_, ?_⟩
    · exact List.map_fst_zip _ _ (by simp [h1])
    · exact List.map_snd_zip _ _ (by simp [h1])
    · exact List.map_fst_zip _ _ (by simp [h2])
    · exact List.map_snd_zip _ _ (by simp [h2])

/-- Witness for C1 (amended): a singleton group returning one URL plus a
checksum, and a main-script run where 2 image records get only 1 non-checksum
URL back. -/
theorem C1_witness :
    (_cutout_and_download (fun _ => ["u/a.fits", "u/a.checksum"])
      [⟨"o1", "f1", "spectral.restored.3d", 0, 0⟩] "out").2
        = .ok [("f1", "out/a.fits")] ∧
    mainDownloadPhase
      (fun g => if g.length == 2 then ["u/a.fits", "u/a.checksum"] else ["u/w.fits"])
      [⟨"o1", "fb", "spectral.restored.3d", 0, 0⟩,
       ⟨"o1", "fa", "spectral.restored.3d", 0, 0⟩,
       ⟨"o1", "fw", "spectral.weight.3d", 0, 0⟩]
        = .error (.countMismatch "image") :=
  ⟨C1_amended.1 _ _ _ _ "u/a.fits" [] (by decide),
   C1_amended.2.1 _ _ (by decide)⟩

/-- Claim C2 counterexample: a query result with one record that the
galactic/region filters remove entirely.  The coordinator does not return a
pair of empty maps: it takes the bare `return` (Python `None`), modelled as
the distinct outcome `noSubset`. -/
theorem C2_counterexample :
    downloadPhase (fun _ => [])
      (filterSubset [⟨"o1", "f_MilkyWay_1", "spectral.restored.3d", 0, 0⟩]
        false ⟨0, 0⟩) none "out" = ([], .noSubset) ∧
    DownloadOutcome.noSubset ≠ DownloadOutcome.result [] [] :=
  ⟨by decide, by decide⟩

/-- Claim C2 as amended: when the filters leave an empty selection the
coordinator performs no cutout or download calls (empty event trace) and
raises no error, but it returns the bare-`return` outcome (`None`), not a
pair of empty file maps. -/
theorem C2_amended :
    ∀ (observations : List Record) (mw : Bool) (c : Centre)
      (svc : List Record → List String) (sbids : Option (List String))
      (out : String),
      filterSubset observations mw c = [] →
      downloadPhase svc (filterSubset observations mw c) sbids out
        = ([], .noSubset) := by
  intro obs mw c svc sbids out h
  rw [h]
  rfl

/-- Witness for C2 (amended): one record, removed by the galactic filter. -/
theorem C2_witness :
    downloadPhase (fun _ => ["u.fits"])
      (filterSubset [⟨"o2", "x_MilkyWay_cube", "spectral.weight.3d", 1, 1⟩]
        false ⟨5, 5⟩) (some ["123"]) "out" = ([], .noSubset) :=
  C2_amended _ _ _ _ _ _ (by decide)

/-- Claim C3 counterexample: a target spec that supplies BOTH a name and
(RA, Dec), and BOTH a frequency range and a velocity range.  The run does not
fail with `InvalidTargetSpec`: name resolution and the frequency range are
used and the pipeline proceeds to the TAP query. -/
theorem C3_counterexample :
    ∃ out,
      mainResolvePhase (fun _ => ⟨1, 2⟩) [] (some "NGC300") (some 150)
        (some (-30)) (some [1400, 1440]) (some [-200, 200])
        "C=$OBS_COLLECTION AND" "WALLABY"
      = ([Ev.login, Ev.nameLookup "NGC300", Ev.tapQuery "C=WALLABY AND"],
         .ok out) :=
  ⟨_, rfl⟩

/-- Claim C3 as amended: the resolver fails with `InvalidTargetSpec` exactly
when name is absent and RA or Dec is absent, or when both frequency and
velocity are absent; supplying both members of a pair is accepted silently
(name takes precedence over coordinates, frequency over velocity).  The
failure precedes the TAP query, but not every network call: the CASDA login
(and, for the spectral failure, the name lookup) appears in the trace before
the error. -/
theorem C3_amended :
    (∀ (rn : String → Centre) (tr : List Record) (ra dec : Option ℚ)
      (freq vel : Option (List ℚ)) (q oc : String),
      ra = none ∨ dec = none →
      mainResolvePhase rn tr none ra dec freq vel q oc
        = ([Ev.login], .error .invalidCoords)) ∧
    (∀ (rn : String → Centre) (tr : List Record) (n : String)
      (ra dec : Option ℚ) (freq vel : Option (List ℚ)) (q oc : String)
      (fs : List ℚ),
      resolveFreq freq vel = .ok fs →
      mainResolvePhase rn tr (some n) ra dec freq vel q oc
        = ([Ev.login, Ev.nameLookup n,
            Ev.tapQuery (strReplace q "$OBS_COLLECTION" oc)],
           .ok (rn n, fs, tr))) ∧
    (∀ (fs : List ℚ) (vel : Option (List ℚ)),
      resolveFreq (some fs) vel = .ok (fs.map (fun f => f * 1000000))) ∧
    (∀ (rn : String → Centre) (tr : List Record) (n q oc : String),
      mainResolvePhase rn tr (some n) none none none none q oc
        = ([Ev.login, Ev.nameLookup n], .error .invalidSpectral)) := by
  refine ⟨?_, ?_, fun _ _ => rfl, fun _ _ _ _ _ => rfl⟩
  · intro rn tr ra dec freq vel q oc h
    rcases h with h | h
    · subst h; cases dec <;> rfl
    · subst h; cases ra <;> rfl
  · intro rn tr n ra dec freq vel q oc fs h
    simp [mainResolvePhase, h]

/-- Witness for C3 (amended): concrete missing-pair runs reaching each error,
with the login (network) event already in the trace. -/
theorem C3_witness :
    mainResolvePhase (fun _ => ⟨1, 2⟩) [] none none (some 3) (some [1]) none
        "Q" "W" = ([Ev.login], .error .invalidCoords) ∧
    mainResolvePhase (fun _ => ⟨1, 2⟩) [] (some "N") none none none none
        "Q" "W" = ([Ev.login, Ev.nameLookup "N"], .error .invalidSpectral) :=
  ⟨C3_amended.1 _ _ _ _ _ _ _ _ (Or.inl rfl), C3_amended.2.2.2 _ _ _ _ _⟩

/-- Claim C5: both mosaic config generators are deterministic — identical
file maps and output paths yield byte-identical rendered config text across
two runs (the association-list iteration order, Python's dict insertion
order, is part of the input and is preserved). -/
theorem C5_config_deterministic :
    ∀ (m1 w1 m2 w2 : List (String × String)) (oi1 ow1 oi2 ow2 : String),
      m1 = m2 → w1 = w2 → oi1 = oi2 → ow1 = ow2 →
      generate_config m1 w1 oi1 ow1 = generate_config m2 w2 oi2 ow2 ∧
      linmos_config_generate m1 w1 oi1 ow1
        = linmos_config_generate m2 w2 oi2 ow2 := by
  intro m1 w1 m2 w2 oi1 ow1 oi2 ow2 h1 h2 h3 h4
  subst h1; subst h2; subst h3; subst h4
  exact ⟨rfl, rfl⟩

/-- Witness for C5: two runs on identical concrete maps and paths. -/
theorem C5_witness :
    generate_config [("a.fits", "out/x.fits")] [("b.fits", "out/y.fits")]
        "out/m.fits" "out/w.fits"
      = generate_config [("a.fits", "out/x.fits")] [("b.fits", "out/y.fits")]
        "out/m.fits" "out/w.fits" ∧
    linmos_config_generate [("a.fits", "out/x.fits")]
        [("b.fits", "out/y.fits")] "out/m.fits" "out/w.fits"
      = linmos_config_generate [("a.fits", "out/x.fits")]
        [("b.fits", "out/y.fits")] "out/m.fits" "out/w.fits" :=
  C5_config_deterministic _ _ _ _ _ _ _ _ rfl rfl rfl rfl

/-- Claim C6 counterexample: src/mosaic/linmos_config.py `generate` lists the
image path exactly as given — `out/cut_a.fits`, not the extension-stripped
`out/cut_a` the claim requires. -/
theorem C6_counterexample :
    (linmos_config_generateC [("orig_a.fits", "out/cut_a.fits")]
      [("orig_b.fits", "out/cut_b.fits")] "out/mos.fits"
      "out/weights.mos.fits").images = ["out/cut_a.fits"] ∧
    with_suffix_empty "out/cut_a.fits" = "out/cut_a" ∧
    "out/cut_a" ∉ (linmos_config_generateC [("orig_a.fits", "out/cut_a.fits")]
      [("orig_b.fits", "out/cut_b.fits")] "out/mos.fits"
      "out/weights.mos.fits").images :=
  ⟨by decide, by decide, by decide⟩

/-- Claim C6 as amended: src/mosaic/linmos.py `generate_config` lists every
image path, weight path and both output paths with the file extension
stripped and records all image-map keys followed by all weight-map keys as
the history; src/mosaic/linmos_config.py `generate` records the same history
but lists all paths unstripped. -/
theorem C6_amended :
    ∀ (m w : List (String × String)) (oi ow : String),
      ((generate_configC m w oi ow).images
          = m.map (fun p => with_suffix_empty p.2) ∧
        (generate_configC m w oi ow).weights
          = w.map (fun p => with_suffix_empty p.2) ∧
        (generate_configC m w oi ow).image_out = with_suffix_empty oi ∧
        (generate_configC m w oi ow).weight_out = with_suffix_empty ow ∧
        (generate_configC m w oi ow).image_history
          = m.map Prod.fst ++ w.map Prod.fst) ∧
      ((linmos_config_generateC m w oi ow).images = m.map Prod.snd ∧
        (linmos_config_generateC m w oi ow).weights = w.map Prod.snd ∧
        (linmos_config_generateC m w oi ow).image_out = oi ∧
        (linmos_config_generateC m w oi ow).weight_out = ow ∧
        (linmos_config_generateC m w oi ow).image_history
          = m.map Prod.fst ++ w.map Prod.fst) := by
  intro m w oi ow
  refine ⟨⟨?_, ?_, rfl, rfl, rfl⟩, ⟨rfl, rfl, rfl, rfl, rfl⟩⟩ <;>
    simp [generate_configC, renderLinmos]

/-- Claim C9: for a batch run that reaches submission, the job script lines
carry the supplied account, time and memory values verbatim; the trace is
write-script, then chmod-executable, then the sbatch submission (so the
script is marked executable before the scheduler CLI runs); a non-zero
scheduler exit yields the submit error; and the only path ever written is
`workdir/linmos.sh`, so the already-written config file is untouched. -/
theorem C9_batch_submit :
    ∀ (container linmos_config scratch workdir singularity : String)
      (kw : SbatchKwargs) (sbatchExit : Nat),
      sbatchExit ≠ 0 →
      ("#SBATCH --account=" ++ kw.account ++ "\n")
          ∈ sbatchCmdLines scratch singularity container linmos_config kw ∧
      ("#SBATCH --time=" ++ kw.time ++ "\n")
          ∈ sbatchCmdLines scratch singularity container linmos_config kw ∧
      ("#SBATCH --mem=" ++ kw.mem ++ "\n")
          ∈ sbatchCmdLines scratch singularity container linmos_config kw ∧
      (run_linmos true true container linmos_config scratch workdir
          singularity kw sbatchExit).1
        = [JobEv.writeScript (workdir ++ "/" ++ "linmos.sh")
             (String.join
               (sbatchCmdLines scratch singularity container linmos_config kw)),
           JobEv.chmodExec (workdir ++ "/" ++ "linmos.sh"),
           JobEv.submit ("sbatch " ++ (workdir ++ "/" ++ "linmos.sh"))] ∧
      (∃ pre mid post,
        (run_linmos true true container linmos_config scratch workdir
            singularity kw sbatchExit).1
          = pre ++ JobEv.chmodExec (workdir ++ "/" ++ "linmos.sh")
              :: (mid ++ JobEv.submit ("sbatch " ++ (workdir ++ "/" ++ "linmos.sh"))
              :: post)) ∧
      (run_linmos true true container linmos_config scratch workdir
          singularity kw sbatchExit).2 = .error .schedulerSubmitError ∧
      (∀ p c, JobEv.writeScript p c
          ∈ (run_linmos true true container linmos_config scratch workdir
              singularity kw sbatchExit).1 →
        p = workdir ++ "/" ++ "linmos.sh") := by
  intro container linmos_config scratch workdir singularity kw sbatchExit h
  have hrun : run_linmos true true container linmos_config scratch workdir
      singularity kw sbatchExit
    = ([JobEv.writeScript (workdir ++ "/" ++ "linmos.sh")
          (String.join
            (sbatchCmdLines scratch singularity container linmos_config kw)),
        JobEv.chmodExec (workdir ++ "/" ++ "linmos.sh"),
        JobEv.submit ("sbatch " ++ (workdir ++ "/" ++ "linmos.sh"))],
       .error .schedulerSubmitError) := by
    simp [run_linmos, h]
  refine ⟨?_, ?_, ?_, ?_, ?_, ?_, ?_⟩
  · simp [sbatchCmdLines]
  · simp [sbatchCmdLines]
  · simp [sbatchCmdLines]
  · rw [hrun]
  · exact ⟨[JobEv.writeScript (workdir ++ "/" ++ "linmos.sh")
        (String.join
          (sbatchCmdLines scratch singularity container linmos_config kw))],
      [], [], by simp [hrun]⟩
  · rw [hrun]
  · intro p c hmem
    rw [hrun] at hmem
    simp at hmem
    exact hmem.1

/-- Witness for C9: a concrete batch run whose scheduler CLI exits nonzero. -/
theorem C9_witness :
    (run_linmos true true "askapsoft.sif" "wd/linmos.conf" "/scratch" "wd"
        "singularity/4.1.0-mpi" ⟨"ja3", "1:00:00", "32G"⟩ 1).2
      = .error .schedulerSubmitError ∧
    ("#SBATCH --account=" ++ "ja3" ++ "\n")
      ∈ sbatchCmdLines "/scratch" "singularity/4.1.0-mpi" "askapsoft.sif"
        "wd/linmos.conf" ⟨"ja3", "1:00:00", "32G"⟩ :=
  ⟨(C9_batch_submit "askapsoft.sif" "wd/linmos.conf" "/scratch" "wd"
      "singularity/4.1.0-mpi" ⟨"ja3", "1:00:00", "32G"⟩ 1
      (by decide)).2.2.2.2.2.1,
   (C9_batch_submit "askapsoft.sif" "wd/linmos.conf" "/scratch" "wd"
      "singularity/4.1.0-mpi" ⟨"ja3", "1:00:00", "32G"⟩ 1 (by decide)).1⟩

end Casda
